import Mathlib

/-!
Verification development for the `task` CLI (packages/task): a shallow
embedding of `packages/task/common/types.ts` and `packages/task/cli/task.ts`
together with theorems about the claims of the specification.

Modelling conventions:
* JavaScript numbers are modelled as exact rationals (`ℚ`); every numeric
  constant appearing in the claims is a small integer, far inside the range
  where IEEE doubles are exact.
* Thrown exceptions are modelled with `Except`.  The repository distinguishes
  exactly two kinds of failure: `AppError` (the single application-error class
  of `types.ts`, caught at the command boundary by `tryAppResult`) and every
  other JavaScript runtime error (`SyntaxError` from `JSON.parse`, `ENOENT`
  from file reads, errors thrown by the OpenAI client), which `tryAppResult`
  re-throws so that the process crashes.  `Err.appError` and `Err.jsError`
  model the two kinds; the exact text of library-generated portions of the
  messages is abbreviated.
* The platform pieces (`JSON.parse`, the file system, `new Date(..).getTime()`
  and the chat-completion endpoint) are modelled explicitly: `JSON.parse` as a
  full JSON parser over exact rationals, the file system as an explicit record
  of the two file contents, date parsing as a `String → Option ℚ` parameter
  (`none` models `NaN`), and the endpoint as a value of `ReplyResult`.
-/

namespace TaskCLI

/-! ## A model of the platform `JSON.parse`

`parseDuration` in `types.ts` calls `JSON.parse` on the first token, so its
failure behaviour depends on which strings are valid JSON.  The grammar below
follows ECMA-404: optional whitespace around a single value; values are
`null`, booleans, numbers (no leading zeros, optional fraction and exponent),
strings with escapes, arrays and objects.  Numbers are kept as exact
rationals. -/

inductive Json where
  | null
  | bool (b : Bool)
  | num (q : ℚ)
  | str (s : String)
  | arr (elems : List Json)
  | obj (members : List (String × Json))

def isJsonWs (c : Char) : Bool :=
  c = ' ' || c = '\t' || c = '\n' || c = '\r'

def skipWs : List Char → List Char
  | [] => []
  | c :: cs => if isJsonWs c then skipWs cs else c :: cs

def takeDigits : List Char → List Char × List Char
  | [] => ([], [])
  | c :: cs =>
    if c.isDigit then
      let (ds, rest) := takeDigits cs
      (c :: ds, rest)
    else ([], c :: cs)

def digitsToNat (ds : List Char) : Nat :=
  ds.foldl (fun acc c => acc * 10 + (c.toNat - Char.toNat '0')) 0

/-- Fractional part: a `.` must be followed by at least one digit. -/
def parseFrac (i : ℚ) : List Char → Option (ℚ × List Char)
  | '.' :: cs =>
    let (ds, rest) := takeDigits cs
    if ds.isEmpty then none
    else some (i + (digitsToNat ds : ℚ) / ((10 : ℚ) ^ ds.length), rest)
  | cs => some (i, cs)

def applyExp (q : ℚ) (neg : Bool) (cs : List Char) : Option (ℚ × List Char) :=
  let (ds, rest) := takeDigits cs
  if ds.isEmpty then none
  else
    let e := digitsToNat ds
    some ((if neg then q / (10 : ℚ) ^ e else q * (10 : ℚ) ^ e), rest)

def parseExp (q : ℚ) : List Char → Option (ℚ × List Char)
  | 'e' :: '+' :: cs => applyExp q false cs
  | 'e' :: '-' :: cs => applyExp q true cs
  | 'e' :: cs => applyExp q false cs
  | 'E' :: '+' :: cs => applyExp q false cs
  | 'E' :: '-' :: cs => applyExp q true cs
  | 'E' :: cs => applyExp q false cs
  | cs => some (q, cs)

def parseNumTail (neg : Bool) (i : Nat) (cs : List Char) : Option (ℚ × List Char) :=
  match parseFrac (i : ℚ) cs with
  | none => none
  | some (q1, cs2) =>
    match parseExp q1 cs2 with
    | none => none
    | some (q2, cs3) => some ((if neg then -q2 else q2), cs3)

/-- JSON number: optional minus sign; integer part `0` or a nonzero digit
followed by digits (a leading zero is never followed by further integer-part
digits); optional fraction and exponent. -/
def parseNumber : List Char → Option (ℚ × List Char) := fun cs =>
  let p := match cs with
    | '-' :: r => (true, r)
    | r => (false, r)
  match p.2 with
  | [] => none
  | c :: rest =>
    if c = '0' then parseNumTail p.1 0 rest
    else if c.isDigit then
      let (ds, rest2) := takeDigits (c :: rest)
      parseNumTail p.1 (digitsToNat ds) rest2
    else none

def hexDigitVal (c : Char) : Option Nat :=
  if c.isDigit then some (c.toNat - Char.toNat '0')
  else if 'a' ≤ c ∧ c ≤ 'f' then some (c.toNat - Char.toNat 'a' + 10)
  else if 'A' ≤ c ∧ c ≤ 'F' then some (c.toNat - Char.toNat 'A' + 10)
  else none

/-- Body of a JSON string, after the opening quote.  Control characters are
rejected; the standard escapes and `\uXXXX` are handled. -/
def parseStrBody (fuel : Nat) (acc : List Char) (cs : List Char) : Option (String × List Char) :=
  match fuel, cs with
  | 0, _ => none
  | _, [] => none
  | fuel' + 1, c :: rest =>
    if c = '"' then some (String.mk acc.reverse, rest)
    else if c = '\\' then
      match rest with
      | [] => none
      | e :: rest2 =>
        if e = '"' then parseStrBody fuel' ('"' :: acc) rest2
        else if e = '\\' then parseStrBody fuel' ('\\' :: acc) rest2
        else if e = '/' then parseStrBody fuel' ('/' :: acc) rest2
        else if e = 'b' then parseStrBody fuel' (Char.ofNat 8 :: acc) rest2
        else if e = 'f' then parseStrBody fuel' (Char.ofNat 12 :: acc) rest2
        else if e = 'n' then parseStrBody fuel' ('\n' :: acc) rest2
        else if e = 'r' then parseStrBody fuel' ('\r' :: acc) rest2
        else if e = 't' then parseStrBody fuel' ('\t' :: acc) rest2
        else if e = 'u' then
          match rest2 with
          | h1 :: h2 :: h3 :: h4 :: rest3 =>
            match hexDigitVal h1, hexDigitVal h2, hexDigitVal h3, hexDigitVal h4 with
            | some a, some b, some c2, some d =>
              parseStrBody fuel' (Char.ofNat (((a * 16 + b) * 16 + c2) * 16 + d) :: acc) rest3
            | _, _, _, _ => none
          | _ => none
        else none
    else if c.toNat < 32 then none
    else parseStrBody fuel' (c :: acc) rest

mutual

def parseVal : Nat → List Char → Option (Json × List Char)
  | 0, _ => none
  | fuel + 1, cs =>
    match skipWs cs with
    | [] => none
    | c :: rest =>
      if c = '{' then
        match skipWs rest with
        | '}' :: rest2 => some (.obj [], rest2)
        | rest2 => parseMembers fuel [] rest2
      else if c = '[' then
        match skipWs rest with
        | ']' :: rest2 => some (.arr [], rest2)
        | rest2 => parseItems fuel [] rest2
      else if c = '"' then
        match parseStrBody (rest.length + 1) [] rest with
        | some (s, rest2) => some (.str s, rest2)
        | none => none
      else if c = 't' then
        match rest with
        | 'r' :: 'u' :: 'e' :: rest2 => some (.bool true, rest2)
        | _ => none
      else if c = 'f' then
        match rest with
        | 'a' :: 'l' :: 's' :: 'e' :: rest2 => some (.bool false, rest2)
        | _ => none
      else if c = 'n' then
        match rest with
        | 'u' :: 'l' :: 'l' :: rest2 => some (.null, rest2)
        | _ => none
      else
        match parseNumber (c :: rest) with
        | some (q, rest2) => some (.num q, rest2)
        | none => none

def parseItems : Nat → List Json → List Char → Option (Json × List Char)
  | 0, _, _ => none
  | fuel + 1, acc, cs =>
    match parseVal fuel cs with
    | none => none
    | some (v, rest) =>
      match skipWs rest with
      | ',' :: rest2 => parseItems fuel (v :: acc) rest2
      | ']' :: rest2 => some (.arr (v :: acc).reverse, rest2)
      | _ => none

def parseMembers : Nat → List (String × Json) → List Char → Option (Json × List Char)
  | 0, _, _ => none
  | fuel + 1, acc, cs =>
    match skipWs cs with
    | '"' :: rest =>
      match parseStrBody (rest.length + 1) [] rest with
      | none => none
      | some (k, rest2) =>
        match skipWs rest2 with
        | ':' :: rest3 =>
          match parseVal fuel rest3 with
          | none => none
          | some (v, rest4) =>
            match skipWs rest4 with
            | ',' :: rest5 => parseMembers fuel ((k, v) :: acc) rest5
            | '}' :: rest5 => some (.obj ((k, v) :: acc).reverse, rest5)
            | _ => none
        | _ => none
    | _ => none

end

/-- Model of the platform `JSON.parse`: `none` models a thrown `SyntaxError`.
The fuel bound `2 * length + 2` dominates the parser call depth, which grows
by at most two per input character. -/
def jsonParse (s : String) : Option Json :=
  let cs := s.data
  match parseVal (2 * cs.length + 2) cs with
  | none => none
  | some (v, rest) => if (skipWs rest).isEmpty then some v else none

/-! ## Models of the JavaScript string primitives used by the source

`String.prototype.trim` and `String.prototype.split` (with a one-character
separator, the only form the source uses) are modelled directly over the
character list, so that every definition evaluates by reduction. -/

/-- The ASCII portion of the whitespace class trimmed by
`String.prototype.trim` (space, tab, line feed, carriage return, vertical
tab, form feed); the source never feeds it non-ASCII whitespace. -/
def jsWhitespace (c : Char) : Bool :=
  c = ' ' || c = '\t' || c = '\n' || c = '\r' || c = Char.ofNat 11 || c = Char.ofNat 12

/-- `s.trim()`: drop leading and trailing whitespace. -/
def jsTrim (s : String) : String :=
  String.mk (((s.data.dropWhile jsWhitespace).reverse.dropWhile jsWhitespace).reverse)

/-- Split a character list at every occurrence of `sep`, keeping empty
segments, as `String.prototype.split` does with a one-character separator
(`"".split(sep)` is `[""]`, `"a,".split(",")` is `["a",""]`). -/
def splitOnChar (sep : Char) : List Char → List (List Char)
  | [] => [[]]
  | c :: cs =>
    let r := splitOnChar sep cs
    if c = sep then [] :: r
    else
      match r with
      | [] => [[c]]
      | g :: gs => (c :: g) :: gs

/-- `s.split(sep)` for a one-character separator. -/
def jsSplit (sep : Char) (s : String) : List String :=
  (splitOnChar sep s.data).map fun g => String.mk g

/-! ## `packages/task/common/types.ts` -/

/-- `TimeUnit_schema` of `types.ts`: the five literal unit tokens. -/
inductive TimeUnit where
  | min
  | hour
  | day
  | week
  | year
deriving DecidableEq

/-- `TimeUnit_schema.safeParse`: a string is a unit exactly when it is one of
the five literals. -/
def TimeUnit_ofString (s : String) : Option TimeUnit :=
  if s = "min" then some .min
  else if s = "hour" then some .hour
  else if s = "day" then some .day
  else if s = "week" then some .week
  else if s = "year" then some .year
  else none

/-- `Duration` of `types.ts`: `{ n: number, unit: TimeUnit }`. -/
structure Duration where
  n : ℚ
  unit : TimeUnit
deriving DecidableEq

/-- `Task_schema` of `types.ts`.  An `Option` field models a field the JSON
object may omit (zod `z.optional`). -/
structure Task where
  date : String
  description : String
  short_description : Option String
  tags : Option (List String)
deriving DecidableEq

/-- `Config_schema` of `types.ts`: all four fields optional. -/
structure Config where
  baseURL : Option String
  apiKey : Option String
  model : Option String
  recency : Option Duration
deriving DecidableEq

/-- `default_Config` of `types.ts`. -/
def default_Config : Config :=
  { baseURL := some "http://localhost:11434/v1"
    apiKey := some "ollama"
    model := some "llama3.2:latest"
    recency := some ⟨1, .day⟩ }

/-- The two kinds of thrown error that matter to the command boundary:
`appError` models the `AppError` class of `types.ts`; `jsError` models every
other JavaScript error (a `SyntaxError` from `JSON.parse`, an `ENOENT` file
error, an error thrown by the HTTP client). -/
inductive Err where
  | appError (msg : String)
  | jsError (msg : String)
deriving DecidableEq

/-- The observable fate of one command under `tryAppResult` of `types.ts`:
an `AppError` is caught and its message printed (no stack trace, `handled`);
any other error is re-thrown and crashes the process (`crashed`). -/
inductive Outcome where
  | success
  | handled (msg : String)
  | crashed (msg : String)
deriving DecidableEq

/-- `tryAppResult` of `types.ts`, lines 76-85, applied to the body's result. -/
def tryAppResult_outcome {α : Type} : Except Err α → Outcome
  | .ok _ => .success
  | .error (.appError m) => .handled m
  | .error (.jsError m) => .crashed m

/-- `z.number().safeParse` applied to a `JSON.parse` result: succeeds exactly
on a JSON number (`JSON.parse` can never produce `NaN`). -/
def z_number : Json → Option ℚ
  | .num q => some q
  | _ => none

/-- The function `go` inside `parseDuration` (`types.ts` lines 35-39), on an
exactly-two-token split `[tok0, tok1]`:
`JSON.parse(ss[0])` throws a `SyntaxError` (not an `AppError`) when the token
is not valid JSON; then `trySafeParse` throws an `AppError` when the parsed
value is not a number or the second token is not a unit.  The zod-generated
tail of each `AppError` message is abbreviated. -/
def parseDuration_go (tok0 tok1 : String) : Except Err Duration :=
  match jsonParse tok0 with
  | none => .error (.jsError ("SyntaxError: JSON parse error at: " ++ tok0))
  | some j =>
    match z_number j with
    | none => .error (.appError "Parse error at \"number\"")
    | some n =>
      match TimeUnit_ofString tok1 with
      | none => .error (.appError "Parse error at \"unit\"")
      | some unit => .ok ⟨n, unit⟩

/-- `parseDuration` of `types.ts`, lines 31-43: trim, split on a single
space; if that yields exactly two tokens, commit to them; otherwise split on
a single period; otherwise throw the `AppError` built from the original
(untrimmed) string. -/
def parseDuration (s : String) : Except Err Duration :=
  let t := jsTrim s
  match jsSplit ' ' t with
  | [a, b] => parseDuration_go a b
  | _ =>
    match jsSplit '.' t with
    | [a, b] => parseDuration_go a b
    | _ => .error (.appError ("Error during parseDuration: invalid Duration: " ++ s))

/-! ## `packages/task/cli/task.ts` -/

/-- `load_config` of `task.ts`, lines 244-250, at the level of already
validated values: given the `Config` read and validated from the config file
and the `Config` validated from the `--config` override string, the result is
the JavaScript spread `{ ...config, ...config_override }` — per field, the
override value whenever the override defines the field (zod keeps a field
exactly when the JSON object had it, and `JSON.parse` output never holds
`undefined`), otherwise the file value. -/
def load_config (config config_override : Config) : Config :=
  { baseURL := match config_override.baseURL with
      | some v => some v
      | none => config.baseURL
    apiKey := match config_override.apiKey with
      | some v => some v
      | none => config.apiKey
    model := match config_override.model with
      | some v => some v
      | none => config.model
    recency := match config_override.recency with
      | some v => some v
      | none => config.recency }

/-- `config.baseURL !== undefined ? config.baseURL : default_Config.baseURL!`
(`task.ts` lines 178 and 224).  The `""` branch mirrors the TypeScript
non-null assertion `!` and is unreachable because `default_Config.baseURL`
is defined. -/
def resolve_baseURL (config : Config) : String :=
  match config.baseURL with
  | some v => v
  | none => default_Config.baseURL.getD ""

/-- `config.apiKey !== undefined ? config.apiKey : default_Config.apiKey!`
(`task.ts` lines 179 and 225). -/
def resolve_apiKey (config : Config) : String :=
  match config.apiKey with
  | some v => v
  | none => default_Config.apiKey.getD ""

/-- `config.model !== undefined ? config.model : default_Config.model!`
(`task.ts` lines 180 and 226). -/
def resolve_model (config : Config) : String :=
  match config.model with
  | some v => v
  | none => default_Config.model.getD ""

/-- `config.recency ?? default_Config.recency!` (`task.ts` line 88). -/
def resolve_recency (config : Config) : Duration :=
  match config.recency with
  | some v => v
  | none => default_Config.recency.getD ⟨1, .day⟩

/-- `getTime_Duration` of `task.ts`, lines 263-276: milliseconds of a
duration, with the literal constant chain of the source (including the
265-day year). -/
def getTime_Duration (d : Duration) : ℚ :=
  match d.unit with
  | .min => d.n * 1000 * 60
  | .hour => d.n * 1000 * 60 * 60
  | .day => d.n * 1000 * 60 * 60 * 24
  | .week => d.n * 1000 * 60 * 60 * 24 * 7
  | .year => d.n * 1000 * 60 * 60 * 24 * 265

/-- `extract_recent_tasks` of `task.ts`, lines 278-281.  `dateTime` models
`(s : String) => new Date(s).getTime()`, with `none` for `NaN` (an
unparseable date); the JavaScript comparison `cutoff_time <= NaN` is `false`,
so a `none` date is dropped.  `now` models `(new Date()).getTime()`. -/
def extract_recent_tasks (dateTime : String → Option ℚ) (now : ℚ)
    (tasks : List Task) (d : Duration) : List Task :=
  let cutoff_time := now - getTime_Duration d
  tasks.filter fun task =>
    match dateTime task.date with
    | none => false
    | some t => decide (cutoff_time ≤ t)

/-- The tag filter of the `show` command, `task.ts` line 136:
`task.tags !== undefined && !tags.every(tag => !task.tags!.includes(tag))`. -/
def tag_filter (tags : List String) (recent_tasks : List Task) : List Task :=
  recent_tasks.filter fun task =>
    match task.tags with
    | none => false
    | some ts => !(tags.all fun tag => !(ts.contains tag))

/-- The `tags` field computed by the `new` command, `task.ts` line 81:
`argv.tags === undefined || argv.tags.trim() === "" ? [] :
argv.tags.trim().split(",")`. -/
def mk_tags (tagsOpt : Option String) : List String :=
  match tagsOpt with
  | none => []
  | some s => if jsTrim s = "" then [] else jsSplit ',' (jsTrim s)

/-- The loop of the `gen-short-descriptions` command, `task.ts` lines
102-111, with `generate_short_description` abstracted as `gen` (which only
ever throws `AppError`, modelled by `Except String`): walk the tasks in
order; a task that already has a `short_description` is left alone; a task
without one receives `gen` of its description; the first failing `gen`
aborts the loop (the thrown error propagates out of the command body). -/
def gen_loop (gen : String → Except String String) : List Task → Except String (List Task)
  | [] => .ok []
  | task :: rest =>
    match task.short_description with
    | some _ =>
      match gen_loop gen rest with
      | .ok ts => .ok (task :: ts)
      | .error e => .error e
    | none =>
      match gen task.description with
      | .error e => .error e
      | .ok sd =>
        match gen_loop gen rest with
        | .ok ts => .ok ({ task with short_description := some sd } :: ts)
        | .error e => .error e

/-- The whole `gen-short-descriptions` command, `task.ts` lines 97-115, as a
transformation of the persisted tasks file: `save_tasks` runs only after the
loop finishes, so on success the file holds the updated array while a thrown
`AppError` reaches `tryAppResult` with the file untouched. Result: the
command outcome and the tasks-file contents after the command. -/
def gen_short_descriptions_run (gen : String → Except String String)
    (stored : List Task) : Outcome × List Task :=
  match gen_loop gen stored with
  | .ok ts => (.success, ts)
  | .error m => (.handled m, stored)

/-- The chat-completion boundary: either a reply whose
`choices[0].message.content` is the given `Option String` (`none` models
`null`), or a request failure (network, auth, rate limit) thrown by the
OpenAI client — an error that is not an `AppError`. -/
inductive ReplyResult where
  | reply (content : Option String)
  | requestError (msg : String)

/-- Message of the `AppError` thrown by `generate_short_description` when the
reply content is `null` (`task.ts` line 237; the apostrophe of the original
message text is omitted here). -/
def null_reply_msg : String := "Error when generating short description: reply content is null"

/-- `generate_short_description` of `task.ts`, lines 222-242, as a function
of the endpoint outcome: a non-null content is returned; a `null` content
triggers the inner `AppError`, which the surrounding `catch` rewraps in a
second `AppError` (JavaScript stringifies the inner error as
`Tasks App Error: <msg>`); a request failure is caught and wrapped in an
`AppError`.  Every failure is an `AppError`, and the single request is never
retried. -/
def generate_short_description_reply (r : ReplyResult) : Except Err String :=
  match r with
  | .reply (some c) => .ok c
  | .reply none =>
    .error (.appError ("Error when generating short description: Tasks App Error: " ++ null_reply_msg))
  | .requestError m => .error (.appError ("Error when generating short description: " ++ m))

/-- The reply handling of the `summarize` command, `task.ts` lines 194-215,
as a function of the endpoint outcome: there is no `try`/`catch` and no null
check — `response.choices[0].message.content` is bound to `summary` and
printed as is (so a `null` content is printed as `null`), while a request
failure propagates as the client error it is, which is not an `AppError`. -/
def summarize_reply_handling (r : ReplyResult) : Except Err (Option String) :=
  match r with
  | .reply c => .ok c
  | .requestError m => .error (.jsError m)

/-- The two persisted files of a tasks directory, as validated values:
`none` models a missing file (reading it rejects with `ENOENT`). -/
structure FS where
  config_file : Option Config
  tasks_file : Option (List Task)
deriving DecidableEq

/-- `Bun.file(config.json).json()` (`task.ts` line 245): a missing file
rejects with an `ENOENT` system error, which is not an `AppError`. -/
def read_config_file (fs : FS) : Except Err Config :=
  match fs.config_file with
  | none => .error (.jsError "ENOENT: no such file or directory: config.json")
  | some c => .ok c

/-- `Bun.file(tasks.json).json()` (`task.ts` lines 257-261): a missing file
rejects with an `ENOENT` system error, which is not an `AppError`. -/
def read_tasks_file (fs : FS) : Except Err (List Task) :=
  match fs.tasks_file with
  | none => .error (.jsError "ENOENT: no such file or directory: tasks.json")
  | some ts => .ok ts

/-- The `new` command, `task.ts` lines 65-96, in source order: read and merge
the config, trim the description, generate the short description
(`generate_short_description` only throws `AppError`, hence the
`Except.mapError`), read the tasks file, push the new task and save.  The
recent-task count computed for the console message is pure and does not
touch the files, so it is omitted.  Result: the file system after the
command together with the created task. -/
def new_cmd (gen : String → Except String String) (config_override : Config)
    (now_str task_arg : String) (tagsOpt : Option String) (fs : FS) :
    Except Err (FS × Task) := do
  let file_config ← read_config_file fs
  let _config := load_config file_config config_override
  let description := jsTrim task_arg
  let short_description ← (gen description).mapError Err.appError
  let task : Task :=
    { date := now_str
      description := description
      short_description := some short_description
      tags := some (mk_tags tagsOpt) }
  let tasks ← read_tasks_file fs
  .ok ({ fs with tasks_file := some (tasks ++ [task]) }, task)

/-- The tasks directory after running `new`: on any thrown error the command
never reaches `save_tasks`, so both files keep their prior contents. -/
def file_after_new (gen : String → Except String String) (config_override : Config)
    (now_str task_arg : String) (tagsOpt : Option String) (fs : FS) : FS :=
  match new_cmd gen config_override now_str task_arg tagsOpt fs with
  | .ok (fs2, _) => fs2
  | .error _ => fs

/-! ## Helper lemmas -/

lemma except_bind_error {ε α β : Type} (e : ε) (f : α → Except ε β) :
    (Except.error e >>= f) = Except.error e := rfl

lemma except_bind_ok {ε α β : Type} (a : α) (f : α → Except ε β) :
    (Except.ok a >>= f : Except ε β) = f a := rfl

/-! ## Spec-side definitions

These are written from the words of the specification and the claims, to be
compared against the definitions translated from the source. -/

/-- Millisecond weight of each unit as the claim states it: 60, 3600, 86400,
604800 seconds for minute/hour/day/week, and the fixed 265-day approximation
for year. -/
def claim_ms_per_unit : TimeUnit → ℚ
  | .min => 60 * 1000
  | .hour => 3600 * 1000
  | .day => 86400 * 1000
  | .week => 604800 * 1000
  | .year => 1000 * 60 * 60 * 24 * 265

/-- Spec-side tokenisation of a duration string, read against the source
order: the space split is committed whenever it yields exactly two tokens,
and only otherwise is the period split tried. -/
def duration_tokens (s : String) : Option (String × String) :=
  match jsSplit ' ' (jsTrim s) with
  | [a, b] => some (a, b)
  | _ =>
    match jsSplit '.' (jsTrim s) with
    | [a, b] => some (a, b)
    | _ => none

/-! ## Claim C1 — config merge precedence -/

/-- Claim C1: loading the config resolves each field independently by
increasing precedence — the override value when the override defines the
field, otherwise the stored file value when the file defines it, otherwise
the built-in default; in particular, with default model `llama3.2:latest`,
file model `x` and override model `y` the resolved model is `y`, without the
override it is `x`, and without the file value it is `llama3.2:latest`. -/
theorem load_config_precedence :
    (∀ file ov : Config, resolve_model (load_config file ov)
        = ov.model.getD (file.model.getD "llama3.2:latest"))
  ∧ (∀ file ov : Config, resolve_baseURL (load_config file ov)
        = ov.baseURL.getD (file.baseURL.getD "http://localhost:11434/v1"))
  ∧ (∀ file ov : Config, resolve_apiKey (load_config file ov)
        = ov.apiKey.getD (file.apiKey.getD "ollama"))
  ∧ (∀ file ov : Config, resolve_recency (load_config file ov)
        = ov.recency.getD (file.recency.getD ⟨1, .day⟩))
  ∧ resolve_model (load_config ⟨none, none, some "x", none⟩ ⟨none, none, some "y", none⟩) = "y"
  ∧ resolve_model (load_config ⟨none, none, some "x", none⟩ ⟨none, none, none, none⟩) = "x"
  ∧ resolve_model (load_config ⟨none, none, none, none⟩ ⟨none, none, none, none⟩)
      = "llama3.2:latest" := by
  refine ⟨?_, ?_, ?_, ?_, rfl, rfl, rfl⟩ <;>
    rintro ⟨b1, a1, m1, r1⟩ ⟨b2, a2, m2, r2⟩
  · cases m2 <;> cases m1 <;> rfl
  · cases b2 <;> cases b1 <;> rfl
  · cases a2 <;> cases a1 <;> rfl
  · cases r2 <;> cases r1 <;> rfl

/-! ## Claim C4 — exact unit conversion -/

/-- Claim C4: the unit-to-millisecond conversion is exact — count times
60/3600/86400/604800 seconds (times 1000 milliseconds) for
minute/hour/day/week, and for year exactly count times the fixed 265-day
constant `1000 * 60 * 60 * 24 * 265`, preserved as written (the model uses
exact rational arithmetic; every constant involved is a small integer). -/
theorem getTime_Duration_exact (d : Duration) :
    getTime_Duration d = d.n * claim_ms_per_unit d.unit := by
  obtain ⟨n, u⟩ := d
  cases u <;> simp [getTime_Duration, claim_ms_per_unit] <;> ring

/-! ## Claim C3 — time-window filter -/

def exDateTime (s : String) : Option ℚ :=
  if s = "0" then some 0
  else if s = "-7200000" then some (-7200000)
  else if s = "-172800000" then some (-172800000)
  else none

def exTaskNow : Task := ⟨"0", "a", none, none⟩

def exTask2h : Task := ⟨"-7200000", "b", none, none⟩

def exTask2d : Task := ⟨"-172800000", "c", none, none⟩

/-- Claim C3: the time-window filter returns exactly the subsequence of
tasks whose date parses to an instant at least `now` minus the duration in
milliseconds, preserving the original order (a sublist of the input; the
input itself is a value and is not mutated); tasks whose date does not parse
are dropped.  Concretely, tasks dated now, now minus two hours and now minus
two days, filtered with one day, yield exactly the first two in order. -/
theorem extract_recent_tasks_spec (dateTime : String → Option ℚ) (now : ℚ)
    (tasks : List Task) (d : Duration) :
    (extract_recent_tasks dateTime now tasks d).Sublist tasks
  ∧ (∀ task : Task, task ∈ extract_recent_tasks dateTime now tasks d ↔
      task ∈ tasks ∧ ∃ t, dateTime task.date = some t ∧ now - getTime_Duration d ≤ t)
  ∧ extract_recent_tasks exDateTime 0 [exTaskNow, exTask2h, exTask2d] ⟨1, .day⟩
      = [exTaskNow, exTask2h] := by
  refine ⟨List.filter_sublist _, ?_, ?_⟩
  · intro task
    simp only [extract_recent_tasks, List.mem_filter]
    cases h : dateTime task.date <;> simp [h]
  · have hc1 : (0 : ℚ) ≤ getTime_Duration ⟨1, .day⟩ := by
      norm_num [getTime_Duration]
    have hc2 : (7200000 : ℚ) ≤ getTime_Duration ⟨1, .day⟩ := by
      norm_num [getTime_Duration]
    have hc3 : ¬ (172800000 : ℚ) ≤ getTime_Duration ⟨1, .day⟩ := by
      norm_num [getTime_Duration]
    simp [extract_recent_tasks, List.filter, exDateTime, exTaskNow, exTask2h, exTask2d,
      hc1, hc2, hc3]

/-! ## Claim C9 — tag filter -/

def ex9a : Task := ⟨"d1", "a-task", none, some ["a"]⟩

def ex9b : Task := ⟨"d2", "b-task", none, some ["b"]⟩

def ex9c : Task := ⟨"d3", "c-task", none, some []⟩

def ex9 : List Task := [ex9a, ex9b, ex9c]

/-- Claim C9: for a non-empty list of filter tags, the tag filter of `show`
keeps exactly the tasks carrying at least one of the given tags — tasks
whose `tags` field is absent or empty are excluded — preserving order (the
result is a sublist of the input). -/
theorem tag_filter_spec (tags : List String) (tasks : List Task) (hne : tags ≠ []) :
    (tag_filter tags tasks).Sublist tasks
  ∧ (∀ task : Task, task ∈ tag_filter tags tasks ↔
      task ∈ tasks ∧ ∃ tag ∈ tags, tag ∈ task.tags.getD [])
  ∧ ∀ task : Task, task.tags = none ∨ task.tags = some [] →
      task ∉ tag_filter tags tasks := by
  refine ⟨List.filter_sublist _, ?_, ?_⟩
  · intro task
    simp only [tag_filter, List.mem_filter]
    cases h : task.tags with
    | none => simp [h]
    | some ts => simp [h, List.all_eq_true, List.elem_iff]
  · intro task h
    rcases h with h | h <;>
      simp [tag_filter, List.mem_filter, h]

/-- Witness for claim C9 at the claim's own example: tasks with tags
`["a"]`, `["b"]`, `[]` filtered by `{"a"}` keep only the first. -/
theorem tag_filter_spec_witness :
    tag_filter ["a"] ex9 = [ex9a]
  ∧ (ex9a ∈ tag_filter ["a"] ex9 ↔ ex9a ∈ ex9 ∧ ∃ tag ∈ ["a"], tag ∈ ex9a.tags.getD []) :=
  ⟨by decide, (tag_filter_spec ["a"] ex9 (by decide)).2.1 ex9a⟩

/-! ## Claim C5 — gen-short-descriptions aborts without saving -/

lemma gen_loop_error_of_blank_failing (gen : String → Except String String) :
    ∀ (stored : List Task) (task : Task), task ∈ stored →
    task.short_description = none → (∃ e, gen task.description = .error e) →
    ∃ m, gen_loop gen stored = .error m := by
  intro stored
  induction stored with
  | nil => intro task h; simp at h
  | cons hd tl ih =>
    intro task hmem hnone hfail
    rcases List.mem_cons.mp hmem with heq | htl
    · subst heq
      obtain ⟨e, he⟩ := hfail
      exact ⟨e, by simp [gen_loop, hnone, he]⟩
    · obtain ⟨m, hm⟩ := ih task htl hnone hfail
      cases hhd : hd.short_description with
      | some s => exact ⟨m, by simp [gen_loop, hhd, hm]⟩
      | none =>
        cases hg : gen hd.description with
        | error e => exact ⟨e, by simp [gen_loop, hhd, hg]⟩
        | ok sd => exact ⟨m, by simp [gen_loop, hhd, hg, hm]⟩

/-- Claim C5: whenever some task lacking a `short_description` makes the
summary request fail, the whole `gen-short-descriptions` command aborts as a
handled application error and never saves — the persisted task file keeps
its prior contents, so no short description generated before the failing
request is written. -/
theorem gen_short_descriptions_abort_no_save (gen : String → Except String String)
    (stored : List Task) (task : Task) (hmem : task ∈ stored)
    (hnone : task.short_description = none)
    (hfail : ∃ e, gen task.description = .error e) :
    ∃ m, gen_short_descriptions_run gen stored = (.handled m, stored) := by
  obtain ⟨m, hm⟩ := gen_loop_error_of_blank_failing gen stored task hmem hnone hfail
  exact ⟨m, by simp [gen_short_descriptions_run, hm]⟩

def w5good : Task := ⟨"d1", "fine", none, none⟩

def w5bad : Task := ⟨"d2", "bad", none, none⟩

def w5gen : String → Except String String :=
  fun d => if d = "bad" then .error "request failed" else .ok "a short description"

/-- Witness for claim C5: with a generator that succeeds on the first blank
task and fails on the second, the command is handled and the stored file is
unchanged (the first generated description is not written). -/
theorem gen_short_descriptions_abort_no_save_witness :
    ∃ m, gen_short_descriptions_run w5gen [w5good, w5bad] = (.handled m, [w5good, w5bad]) :=
  gen_short_descriptions_abort_no_save w5gen [w5good, w5bad] w5bad
    (List.mem_cons_of_mem _ (List.mem_cons_self _ _)) rfl ⟨"request failed", rfl⟩

/-! ## Claim C6 — gen-short-descriptions frame conditions -/

/-- Frame relation between an input task and the corresponding output task
of a successful `gen-short-descriptions` run, written from the claim: date,
description and tags unchanged; an existing `short_description` kept
character for character; an absent one filled with the generated
sentence. -/
def gsd_frame (gen : String → Except String String) (t r : Task) : Prop :=
  r.date = t.date ∧ r.description = t.description ∧ r.tags = t.tags ∧
  (∀ s, t.short_description = some s → r.short_description = some s) ∧
  (t.short_description = none → ∃ s, gen t.description = .ok s ∧ r.short_description = some s)

/-- Claim C6: after a successful `gen-short-descriptions` run the output
list relates to the input pointwise (same length, same order) by the frame
relation — populated `short_description` fields are untouched, only absent
ones are filled, and every other field of every task is unchanged. -/
theorem gen_short_descriptions_frame (gen : String → Except String String) :
    ∀ (tasks result : List Task), gen_loop gen tasks = .ok result →
    List.Forall₂ (gsd_frame gen) tasks result := by
  intro tasks
  induction tasks with
  | nil =>
    intro result h
    simp only [gen_loop] at h
    cases h
    exact .nil
  | cons hd tl ih =>
    intro result h
    simp only [gen_loop] at h
    cases hhd : hd.short_description with
    | some s =>
      rw [hhd] at h
      cases hrec : gen_loop gen tl with
      | error e => rw [hrec] at h; cases h
      | ok ts =>
        rw [hrec] at h
        cases h
        refine .cons ⟨rfl, rfl, rfl, fun s2 hs2 => hs2, fun hn => ?_⟩ (ih ts hrec)
        rw [hhd] at hn
        cases hn
    | none =>
      rw [hhd] at h
      cases hg : gen hd.description with
      | error e => rw [hg] at h; cases h
      | ok sd =>
        rw [hg] at h
        cases hrec : gen_loop gen tl with
        | error e => rw [hrec] at h; cases h
        | ok ts =>
          rw [hrec] at h
          cases h
          refine .cons ⟨rfl, rfl, rfl, fun s2 hs2 => ?_, fun _ => ⟨sd, hg, rfl⟩⟩ (ih ts hrec)
          rw [hhd] at hs2
          cases hs2

def w6a : Task := ⟨"d1", "described a", some "kept", some ["x"]⟩

def w6b : Task := ⟨"d2", "described b", none, none⟩

def w6gen : String → Except String String := fun _ => .ok "generated"

/-- Witness for claim C6: a run over one populated and one blank task keeps
the populated description and fills only the blank one. -/
theorem gen_short_descriptions_frame_witness :
    List.Forall₂ (gsd_frame w6gen) [w6a, w6b]
      [w6a, { w6b with short_description := some "generated" }] :=
  gen_short_descriptions_frame w6gen [w6a, w6b]
    [w6a, { w6b with short_description := some "generated" }] rfl

/-! ## Claim C7 — null replies and request failures (corrected) -/

/-- Counterexample to claim C7 as stated: on a reply whose content is
`null`, the `summarize` path does not fail with an application error at all —
it succeeds and prints the `null` reply. -/
theorem summarize_null_reply_counterexample :
    summarize_reply_handling (.reply none) = .ok none ∧
    tryAppResult_outcome (summarize_reply_handling (.reply none)) = .success :=
  ⟨rfl, rfl⟩

/-- Claim C7 as amended: the single-task short-description path turns a
non-null content into the returned text and every failure — `null` content
or request error — into an `AppError` (the application-error kind), with the
single request never retried; the multi-task `summarize` path, by contrast,
passes the content through unchecked (printing a `null` reply) and lets a
request failure propagate as the non-application error it is. -/
theorem reply_error_handling :
    (∀ c, generate_short_description_reply (.reply (some c)) = .ok c)
  ∧ (∃ m, generate_short_description_reply (.reply none) = .error (.appError m))
  ∧ (∀ m, generate_short_description_reply (.requestError m)
        = .error (.appError ("Error when generating short description: " ++ m)))
  ∧ (∀ c, summarize_reply_handling (.reply c) = .ok c)
  ∧ (∀ m, summarize_reply_handling (.requestError m) = .error (.jsError m)) :=
  ⟨fun _ => rfl, ⟨_, rfl⟩, fun _ => rfl, fun _ => rfl, fun _ => rfl⟩

/-! ## Claim C8 — `new` on an uninitialized directory (corrected) -/

def fs_uninitialized : FS := ⟨none, none⟩

def gen_const_ok : String → Except String String := fun _ => .ok "a short description"

/-- Counterexample to claim C8 as stated: on a directory with no config
file, `new` fails with an `ENOENT` system error that is not an application
error, so `tryAppResult` re-throws it and the process crashes with a stack
trace — it is not a handled `NotFoundError` printed at the command boundary
(no such error kind exists in the code).  The files are left unchanged. -/
theorem new_uninitialized_counterexample :
    tryAppResult_outcome (new_cmd gen_const_ok default_Config "now" "a task" none fs_uninitialized)
      = .crashed "ENOENT: no such file or directory: config.json"
  ∧ file_after_new gen_const_ok default_Config "now" "a task" none fs_uninitialized
      = fs_uninitialized :=
  ⟨rfl, rfl⟩

/-- Claim C8 as amended: `new` against a directory missing the config file
or the task file always fails and writes nothing — neither file is created
or modified — but the missing-file failure is a system error, not a caught
application error: when the config file is missing the outcome is a crash
(uncaught `ENOENT`), not a clean boundary message. -/
theorem new_uninitialized_no_write (gen : String → Except String String)
    (config_override : Config) (now_str task_arg : String) (tagsOpt : Option String)
    (fs : FS) (h : fs.config_file = none ∨ fs.tasks_file = none) :
    (∃ e, new_cmd gen config_override now_str task_arg tagsOpt fs = .error e)
  ∧ file_after_new gen config_override now_str task_arg tagsOpt fs = fs
  ∧ (fs.config_file = none →
      ∃ m, tryAppResult_outcome (new_cmd gen config_override now_str task_arg tagsOpt fs)
        = .crashed m) := by
  cases hc : fs.config_file with
  | none =>
    refine ⟨⟨.jsError "ENOENT: no such file or directory: config.json", ?_⟩, ?_, ?_⟩ <;>
      simp [new_cmd, read_config_file, hc, file_after_new, tryAppResult_outcome,
        except_bind_error]
  | some c =>
    have hts : fs.tasks_file = none := by
      rcases h with h | h
      · rw [hc] at h; cases h
      · exact h
    cases hg : gen (jsTrim task_arg) with
    | error e =>
      refine ⟨⟨.appError e, ?_⟩, ?_, ?_⟩
      · simp [new_cmd, read_config_file, hc, hg, except_bind_ok, except_bind_error,
          Except.mapError]
      · simp [file_after_new, new_cmd, read_config_file, hc, hg, except_bind_ok,
          except_bind_error, Except.mapError]
      · intro h0; simp at h0
    | ok sd =>
      refine ⟨⟨.jsError "ENOENT: no such file or directory: tasks.json", ?_⟩, ?_, ?_⟩
      · simp [new_cmd, read_config_file, read_tasks_file, hc, hg, hts, except_bind_ok,
          except_bind_error, Except.mapError]
      · simp [file_after_new, new_cmd, read_config_file, read_tasks_file, hc, hg, hts,
          except_bind_ok, except_bind_error, Except.mapError]
      · intro h0; simp at h0

def fs8w : FS := ⟨none, some []⟩

/-- Witness for claim C8 (amended): a directory with a task file but no
config file makes `new` fail without writing, by a crash. -/
theorem new_uninitialized_no_write_witness :
    (∃ e, new_cmd gen_const_ok default_Config "now" "a task" none fs8w = .error e)
  ∧ file_after_new gen_const_ok default_Config "now" "a task" none fs8w = fs8w
  ∧ (fs8w.config_file = none →
      ∃ m, tryAppResult_outcome (new_cmd gen_const_ok default_Config "now" "a task" none fs8w)
        = .crashed m) :=
  new_uninitialized_no_write gen_const_ok default_Config "now" "a task" none fs8w (Or.inl rfl)

/-! ## Claim C10 — `new` always defines the tags field -/

/-- Claim C10: every task created by a successful `new` run has a defined
`tags` field — `some` of the empty list when the `--tags` option is omitted
or blank after trimming, and otherwise `some` of the comma-split segments of
the trimmed argument — even though the `Task` schema marks `tags`
optional. -/
theorem new_task_tags_defined (gen : String → Except String String)
    (config_override : Config) (now_str task_arg : String) (tagsOpt : Option String)
    (fs fs2 : FS) (task : Task)
    (h : new_cmd gen config_override now_str task_arg tagsOpt fs = .ok (fs2, task)) :
    task.tags = some (mk_tags tagsOpt)
  ∧ (tagsOpt = none → mk_tags tagsOpt = [])
  ∧ (∀ s, tagsOpt = some s → jsTrim s = "" → mk_tags tagsOpt = [])
  ∧ (∀ s, tagsOpt = some s → jsTrim s ≠ "" → mk_tags tagsOpt = jsSplit ',' (jsTrim s)) := by
  refine ⟨?_, fun hn => by simp [mk_tags, hn], ?_, ?_⟩
  · cases hc : fs.config_file with
    | none => simp [new_cmd, read_config_file, hc, except_bind_error] at h
    | some c =>
      cases hg : gen (jsTrim task_arg) with
      | error e =>
        simp [new_cmd, read_config_file, hc, hg, except_bind_ok, except_bind_error,
          Except.mapError] at h
      | ok sd =>
        cases htf : fs.tasks_file with
        | none =>
          simp [new_cmd, read_config_file, read_tasks_file, hc, hg, htf, except_bind_ok,
            except_bind_error, Except.mapError] at h
        | some ts =>
          simp only [new_cmd, read_config_file, read_tasks_file, hc, hg, htf,
            except_bind_ok, except_bind_error, Except.mapError, Except.ok.injEq,
            Prod.mk.injEq] at h
          rw [← h.2]
  · intro s hs htrim
    simp [mk_tags, hs, htrim]
  · intro s hs htrim
    simp [mk_tags, hs, htrim]

def fs10 : FS := ⟨some default_Config, some []⟩

def task10 : Task :=
  ⟨"now", "my task", some "a short description", some ["a", "b"]⟩

/-- Witness for claim C10: a successful concrete `new` run with
`--tags " a,b "` produces a task whose tags are `some ["a", "b"]`. -/
theorem new_task_tags_defined_witness :
    task10.tags = some (mk_tags (some " a,b "))
  ∧ (some " a,b " = (none : Option String) → mk_tags (some " a,b ") = [])
  ∧ (∀ s, some " a,b " = some s → jsTrim s = "" → mk_tags (some " a,b ") = [])
  ∧ (∀ s, some " a,b " = some s → jsTrim s ≠ "" →
      mk_tags (some " a,b ") = jsSplit ',' (jsTrim s)) :=
  new_task_tags_defined gen_const_ok default_Config "now" " my task " (some " a,b ")
    fs10 ⟨some default_Config, some [task10]⟩ task10 rfl

/-! ## Claim C2 — duration parsing (corrected) -/

lemma parseDuration_eq_tokens (s : String) :
    parseDuration s = match duration_tokens s with
      | some (a, b) => parseDuration_go a b
      | none => .error (.appError ("Error during parseDuration: invalid Duration: " ++ s)) := by
  rcases hs : jsSplit ' ' (jsTrim s) with _ | ⟨a, _ | ⟨b, _ | ⟨c, t⟩⟩⟩ <;>
    simp only [parseDuration, duration_tokens, hs] <;>
    rcases hp : jsSplit '.' (jsTrim s) with _ | ⟨a2, _ | ⟨b2, _ | ⟨c2, t2⟩⟩⟩ <;>
    simp only [hp]

/-- Counterexample to claim C2 as stated: `"abc day"` and `"day 1"` do fail,
but with the `SyntaxError` thrown by `JSON.parse` on the first token — an
error that is not an `AppError` — rather than with a `ParseError`. -/
theorem parseDuration_error_kind_counterexample :
    parseDuration "abc day" = .error (.jsError "SyntaxError: JSON parse error at: abc")
  ∧ parseDuration "day 1" = .error (.jsError "SyntaxError: JSON parse error at: day") :=
  ⟨rfl, rfl⟩

/-- Claim C2 as amended: the parser trims the input and commits to the space
split when it yields exactly two tokens, otherwise tries the period split;
with no two-token split it fails with the `ParseError` `AppError`.  On a
committed token pair it succeeds exactly when the first token is valid JSON
denoting a number and the second is a recognized unit; when the first token
is not valid JSON it fails with the `JSON.parse` syntax error (not an
application error), and with every other failure — non-numeric JSON first
token or unrecognized unit — it fails with a `ParseError` `AppError`. -/
theorem parseDuration_characterization (s : String) :
    (duration_tokens s = none →
      parseDuration s
        = .error (.appError ("Error during parseDuration: invalid Duration: " ++ s)))
  ∧ ∀ a b : String, duration_tokens s = some (a, b) →
      ((jsonParse a = none → ∃ m, parseDuration s = .error (.jsError m))
    ∧ (∀ j, jsonParse a = some j → z_number j = none →
          parseDuration s = .error (.appError "Parse error at \"number\""))
    ∧ (∀ n : ℚ, (jsonParse a).bind z_number = some n → TimeUnit_ofString b = none →
          parseDuration s = .error (.appError "Parse error at \"unit\""))
    ∧ (∀ (n : ℚ) (u : TimeUnit), (jsonParse a).bind z_number = some n →
          TimeUnit_ofString b = some u → parseDuration s = .ok ⟨n, u⟩)) := by
  have hpd := parseDuration_eq_tokens s
  constructor
  · intro h0
    rw [hpd, h0]
  · intro a b hab
    rw [hpd, hab]
    refine ⟨?_, ?_, ?_, ?_⟩
    · intro hj
      exact ⟨"SyntaxError: JSON parse error at: " ++ a, by simp [parseDuration_go, hj]⟩
    · intro j hj hz
      simp [parseDuration_go, hj, hz]
    · intro n hn hu
      cases hj : jsonParse a with
      | none => rw [hj] at hn; simp at hn
      | some j =>
        rw [hj] at hn
        simp only [Option.some_bind] at hn
        simp [parseDuration_go, hj, hn, hu]
    · intro n u hn hu
      cases hj : jsonParse a with
      | none => rw [hj] at hn; simp at hn
      | some j =>
        rw [hj] at hn
        simp only [Option.some_bind] at hn
        simp [parseDuration_go, hj, hn, hu]

/-- Witness for claim C2 (amended), at the success case of the claim:
`"1 day"` parses to count 1 and unit day. -/
theorem parseDuration_characterization_witness :
    parseDuration "1 day" = .ok ⟨1, .day⟩ :=
  (((parseDuration_characterization "1 day").2 "1" "day" rfl).2.2.2) 1 .day (by decide) rfl

end TaskCLI
